import Mathlib

/-!
Verification development for the ArxivPaperCurator ingestion pipeline.

Shallow embedding of the pipeline sources:
  src/services/arxiv/client.py        (ArxivClient)
  src/services/pdf_parser/docling.py  (DoclingParser)
  src/services/pdf_parser/parser.py   (PDFParserService)
  src/services/metadata_extractor.py  (MetadataFetcher)
  src/repositories/paper.py           (PaperRepository)
  src/schemas/arxiv/paper.py          (ArxivPaper, PaperCreate)
  src/schemas/pdf_parser/models.py    (PdfContent, ParsedPaper, ...)

Python exceptions are modelled as an explicit error type, fallible code as
`Except`; mutable state (database sessions, the shared rate-limit timestamp)
is passed explicitly; the asyncio semaphore discipline of the batch stage is
modelled as a small labelled transition system.
-/

set_option autoImplicit false

/-- Exception values that the embedded code can raise.  Constructors mirror
the classes in `src/exceptions.py` (imported by the sources), the relevant
`httpx` transport errors, and the Python builtins the code can trip over.
Messages are carried as strings; for builtins such as `KeyError` we carry the
bare key (Python would render it quoted). -/
inductive PyExn where
  | keyError (key : String)
  | valueError (msg : String)
  | typeError (msg : String)
  | attributeError (msg : String)
  | validationError (msg : String)
  | arxivAPITimeoutError (msg : String)
  | arxivAPIException (msg : String)
  | arxivParseError (msg : String)
  | pdfDownloadException (msg : String)
  | pdfDownloadTimeoutError (msg : String)
  | pdfValidationError (msg : String)
  | pdfParsingException (msg : String)
  | metadataFetchingException (msg : String)
  | pipelineException (msg : String)
  deriving DecidableEq

/-- Result of a Python call that may raise. -/
abbrev Py (α : Type) : Type := Except PyExn α

deriving instance DecidableEq for Except

/-- Rendering `str(e)` of an exception: the carried message (for `KeyError`
Python would print the key quoted; we carry the bare key). -/
def PyExn.str : PyExn → String
  | .keyError k => k
  | .valueError m => m
  | .typeError m => m
  | .attributeError m => m
  | .validationError m => m
  | .arxivAPITimeoutError m => m
  | .arxivAPIException m => m
  | .arxivParseError m => m
  | .pdfDownloadException m => m
  | .pdfDownloadTimeoutError m => m
  | .pdfValidationError m => m
  | .pdfParsingException m => m
  | .metadataFetchingException m => m
  | .pipelineException m => m

/-- Lowercasing of a string, as Python `str.lower` does for ASCII text. -/
def strLower (s : String) : String :=
  String.mk (s.toList.map Char.toLower)

/-- Does the list start with the given pattern? -/
def listStarts {α : Type} [DecidableEq α] : List α → List α → Bool
  | _, [] => true
  | [], _ :: _ => false
  | a :: as, b :: bs => if a = b then listStarts as bs else false

/-- Does the list contain the pattern as a contiguous sublist? -/
def listHasSub {α : Type} [DecidableEq α] : List α → List α → Bool
  | [], needle => needle.isEmpty
  | a :: as, needle => listStarts (a :: as) needle || listHasSub as needle

/-- Python `needle in hay` on strings: contiguous substring test. -/
def strHasSub (hay needle : String) : Bool :=
  listHasSub hay.toList needle.toList

/-- Python `str.strip` on a character list: drop whitespace from both
ends. -/
def pyStripList (l : List Char) : List Char :=
  ((l.dropWhile Char.isWhitespace).reverse.dropWhile Char.isWhitespace).reverse

/-- Python `str.strip`: drop whitespace from both ends. -/
def pyStrip (s : String) : String :=
  String.mk (pyStripList s.toList)

/-! ## Data model (src/schemas) -/

/-- Schema `ArxivPaper` from src/schemas/arxiv/paper.py. -/
structure ArxivPaper where
  arxiv_id : String
  title : String
  authors : List String
  abstract : String
  categories : List String
  published_date : String
  pdf_url : String
  deriving DecidableEq

/-- Enum `ParserType` from src/schemas/pdf_parser/models.py. -/
inductive ParserType where
  | docling
  | grobid
  deriving DecidableEq

/-- The `.value` of a `ParserType` member. -/
def ParserType.val : ParserType → String
  | .docling => "docling"
  | .grobid => "grobid"

/-- Schema `PaperSection` (title and textual content of one section). -/
structure PaperSection where
  title : String
  content : String
  deriving DecidableEq

/-- Schema `PdfContent`: content extracted from a PDF by a parser.  The
free-form `metadata` dict is modelled as a string-to-string association
list. -/
structure PdfContent where
  sections : List PaperSection
  raw_text : String
  references : List String
  parser_used : ParserType
  metadata : List (String × String)
  deriving DecidableEq

/-- Schema `ArxivMetadata` from src/schemas/pdf_parser/models.py. -/
structure ArxivMetadata where
  title : String
  authors : List String
  abstract : String
  arxiv_id : String
  categories : List String
  published_date : String
  pdf_url : String
  deriving DecidableEq

/-- Schema `ParsedPaper`: metadata plus optional parsed PDF content. -/
structure ParsedPaper where
  arxiv_metadata : ArxivMetadata
  pdf_content : Option PdfContent
  deriving DecidableEq

/-! ## ArxivClient response parsing (src/services/arxiv/client.py) -/

/-- One `entry` element of the Atom feed returned by the catalog API,
abstracted to the child elements the client reads.  `Option` fields model a
missing element (or an element with no text). -/
structure AtomEntry where
  arxiv_id_text : Option String
  title_text : Option String
  summary_text : Option String
  published_text : Option String
  author_names : List String
  category_terms : List String
  pdf_href : Option String
  deriving DecidableEq

/-- Method `ArxivClient._get_arxiv_id`: text of the id element, stripped, or
`None` when the element or its text is missing. -/
def ArxivClient.get_arxiv_id (entry : AtomEntry) : Option String :=
  match entry.arxiv_id_text with
  | none => none
  | some t => some (pyStrip t)

/-- Method `ArxivClient._get_text`: extract the text at `path`, stripped;
empty string when absent.  Its keyword parameter is named `clean_newline`
(singular). -/
def ArxivClient.get_text (entry : AtomEntry) (path : String)
    (clean_newline : Bool := false) : String :=
  let txt : Option String :=
    match path with
    | "atom:title" => entry.title_text
    | "atom:summary" => entry.summary_text
    | "atom:published" => entry.published_text
    | _ => none
  match txt with
  | none => ""
  | some t =>
    let t := pyStrip t
    if clean_newline then t.replace "\n" " " else t

/-- Method `ArxivClient._get_authors`: stripped author names. -/
def ArxivClient.get_authors (entry : AtomEntry) : List String :=
  entry.author_names.map pyStrip

/-- Method `ArxivClient._get_categories`: stripped category terms. -/
def ArxivClient.get_categories (entry : AtomEntry) : List String :=
  entry.category_terms.map pyStrip

/-- Body of `ArxivClient._parse_single_entry` before its `except` handler.
After a non-empty id is extracted, the code calls
`self._get_text(entry, "atom:title", clean_newlines=True)`: `_get_text`
declares no parameter named `clean_newlines` (its parameter is
`clean_newline`), so the call raises `TypeError`.  The remaining statements
(including the call to `self.__get_pdf_url`, an attribute that name-mangling
makes nonexistent, and the `ArxivPaper(id=..., published=...)` construction
whose keywords do not match the schema fields) are unreachable but are kept
here in source order. -/
def ArxivClient.parse_single_entry_body (entry : AtomEntry) : Py (Option ArxivPaper) := do
  let arxiv_id := ArxivClient.get_arxiv_id entry
  match arxiv_id with
  | none => return none
  | some idStr =>
    if idStr = "" then
      return none
    else do
      let _title ← (Except.error (PyExn.typeError
        "get_text got an unexpected keyword argument clean_newlines") : Py String)
      let _authors := ArxivClient.get_authors entry
      let _abstract ← (Except.error (PyExn.typeError
        "get_text got an unexpected keyword argument clean_newlines") : Py String)
      let _published := ArxivClient.get_text entry "atom:published"
      let _categories := ArxivClient.get_categories entry
      let _pdf_url ← (Except.error (PyExn.attributeError
        "ArxivClient object has no attribute get_pdf_url") : Py String)
      (Except.error (PyExn.validationError
        "validation errors for ArxivPaper: arxiv_id field required, published_date field required") : Py (Option ArxivPaper))

/-- Method `ArxivClient._parse_single_entry`: the whole body is wrapped in
`try ... except Exception: return None`, so every raised error yields
`None`. -/
def ArxivClient.parse_single_entry (entry : AtomEntry) : Option ArxivPaper :=
  match ArxivClient.parse_single_entry_body entry with
  | .ok p => p
  | .error _ => none

/-- Method `ArxivClient._parse_response` on a well-formed feed, given its
list of `entry` elements.  In the source the `return papers` statement is
indented inside the `for` loop body, so the function returns after examining
the first entry; with no entries the loop never runs and the function falls
off the end, implicitly returning `None` (modelled as `none`). -/
def ArxivClient.parse_response (entries : List AtomEntry) : Option (List ArxivPaper) :=
  match entries with
  | [] => none
  | e :: _ =>
    let papers : List ArxivPaper := []
    let papers :=
      match ArxivClient.parse_single_entry e with
      | some p => papers ++ [p]
      | none => papers
    some papers

/-! ## ArxivClient rate limiting (src/services/arxiv/client.py, fetch_papers) -/

/-- The shared mutable state of an `ArxivClient`: the last-request
timestamp, `None` on a freshly constructed client. -/
structure ArxivClientState where
  last_request_time : Option Rat
  deriving DecidableEq

/-- Result of running the rate-limit section of `fetch_papers` at wall-clock
time `now`: how long the call slept, the time at which the HTTP request is
then issued, and the state left behind. -/
structure RateStep where
  sleep_seconds : Rat
  request_time : Rat
  state : ArxivClientState
  deriving DecidableEq

/-- Rate-limit section of `ArxivClient.fetch_papers` (the block guarded by
`if self._last_request_time is not None`).  When the stored timestamp is
`None` the whole block — including the assignment that records the new
request time — is skipped, so a fresh client issues its request immediately
and still records nothing.  Otherwise the call sleeps for the remaining
delay (if any) and records the post-sleep time. -/
def ArxivClient.fetch_papers_rate_step (rate_limit_delay : Rat) (now : Rat)
    (st : ArxivClientState) : RateStep :=
  match st.last_request_time with
  | none =>
    { sleep_seconds := 0, request_time := now, state := st }
  | some last =>
    let time_since_last_request := now - last
    let sleep :=
      if time_since_last_request < rate_limit_delay then
        rate_limit_delay - time_since_last_request
      else 0
    let t := now + sleep
    { sleep_seconds := sleep, request_time := t,
      state := { last_request_time := some t } }

/-! ## ArxivClient download retry (src/services/arxiv/client.py) -/

/-- Kind of exception raised inside the download `try` block of one attempt
of `_download_with_retry`. -/
inductive HttpFailure where
  | timeoutExc
  | httpErr
  | otherExc
  deriving DecidableEq

/-- Outcome of one download attempt.  On failure, `openedFile` records
whether the attempt got as far as opening the destination with mode `wb`
(leaving a partial or empty file at the path). -/
inductive AttemptResult where
  | success
  | failure (exn : HttpFailure) (openedFile : Bool)
  deriving DecidableEq

/-- Which `except` clauses of `_download_with_retry` match a raised
exception.  The clauses appear in source order: `except Exception` (first),
`except httpx.HTTPError` (second; timeouts are a subclass of it), `except
Exception` (third). -/
def ArxivClient.clauseMatches (clause : Nat) (e : HttpFailure) : Bool :=
  match clause with
  | 0 => true
  | 1 =>
    match e with
    | .timeoutExc => true
    | .httpErr => true
    | .otherExc => false
  | 2 => true
  | _ => false

/-- Python chooses the first matching `except` clause; since the first
clause is `except Exception`, it handles every failure and the later two
clauses are dead. -/
def ArxivClient.handlerFor (e : HttpFailure) : Nat :=
  if ArxivClient.clauseMatches 0 e then 0
  else if ArxivClient.clauseMatches 1 e then 1
  else 2

/-- Final state of `_download_with_retry`: the returned value or raised
exception, the backoff sleeps performed between attempts (in order), and
whether a file is left at the destination path when the call ends. -/
structure RetryState where
  outcome : Py Bool
  sleeps : List Rat
  fileAtPath : Bool
  deriving DecidableEq

/-- The `for attempt in range(max_retries)` loop of `_download_with_retry`,
with `remaining` iterations left and `attempt` the current index.  On a
failure that is not the last attempt the handler sleeps
`download_retry_delay_secs * (attempt + 1)` and continues; on the last
attempt the chosen handler raises (the first clause, which always wins,
raises `PDFDownloadTimeoutError` for every failure kind).  Only when the
loop finishes all iterations without returning or raising — possible only
for `max_retries = 0` — does control reach the partial-file cleanup after
the loop. -/
def ArxivClient.retry_loop (base_delay : Rat) (max_retries : Nat)
    (attempts : Nat → AttemptResult) (url : String) :
    Nat → Nat → Bool → List Rat → RetryState
  | 0, _, _, sleeps => { outcome := .ok false, sleeps := sleeps.reverse, fileAtPath := false }
  | remaining + 1, attempt, fileAt, sleeps =>
    match attempts attempt with
    | .success => { outcome := .ok true, sleeps := sleeps.reverse, fileAtPath := true }
    | .failure e opened =>
      let fileAt := opened || fileAt
      match ArxivClient.handlerFor e with
      | 0 =>
        if attempt < max_retries - 1 then
          ArxivClient.retry_loop base_delay max_retries attempts url remaining (attempt + 1)
            fileAt (base_delay * ((attempt + 1 : Nat) : Rat) :: sleeps)
        else
          { outcome := .error (PyExn.pdfDownloadTimeoutError
              ("Failed to download PDF from " ++ url ++ " after " ++ toString max_retries
                ++ " attempts.")),
            sleeps := sleeps.reverse, fileAtPath := fileAt }
      | 1 =>
        if attempt < max_retries - 1 then
          ArxivClient.retry_loop base_delay max_retries attempts url remaining (attempt + 1)
            fileAt (base_delay * ((attempt + 1 : Nat) : Rat) :: sleeps)
        else
          { outcome := .error (PyExn.pdfDownloadException
              ("Failed to download PDF from " ++ url ++ " after " ++ toString max_retries
                ++ " attempts.")),
            sleeps := sleeps.reverse, fileAtPath := fileAt }
      | _ =>
        { outcome := .error (PyExn.pdfDownloadException
            ("Unexpected error downloading PDF from " ++ url)),
          sleeps := sleeps.reverse, fileAtPath := fileAt }

/-- Method `ArxivClient._download_with_retry` for a destination path with no
pre-existing file (the caller `download_pdf` returns the cached path before
reaching this method when the file exists). -/
def ArxivClient.download_with_retry (base_delay : Rat) (max_retries : Nat)
    (attempts : Nat → AttemptResult) (url : String) : RetryState :=
  ArxivClient.retry_loop base_delay max_retries attempts url max_retries 0 false []

/-! ## DoclingParser (src/services/pdf_parser/docling.py) -/

/-- Configuration of a `DoclingParser`: `max_pages` as given, and the byte
limit already multiplied out (the constructor stores
`max_file_size_mb * 1024 * 1024`). -/
structure DoclingParser where
  max_pages : Nat
  max_file_size_bytes : Nat
  deriving DecidableEq

/-- Constructor `DoclingParser.__init__` restricted to the two limits it
stores (the docling pipeline options are external). -/
def DoclingParser.mk_parser (max_pages : Nat) (max_file_size_mb : Nat) : DoclingParser :=
  { max_pages := max_pages, max_file_size_bytes := max_file_size_mb * 1024 * 1024 }

/-- Facts about a PDF file on disk that `_validate_pdf` inspects. -/
structure PdfInfo where
  size_bytes : Nat
  header_is_pdf : Bool
  page_count : Nat
  deriving DecidableEq

/-- Method `DoclingParser._validate_pdf`: raises `PDFValidationError` with
the exact source message for an empty file, an oversized file, a bad
signature, or too high a page count; returns `True` otherwise. -/
def DoclingParser.validate_pdf (p : DoclingParser) (pdf : PdfInfo) (pathStr : String) :
    Py Bool :=
  if pdf.size_bytes = 0 then
    .error (PyExn.pdfValidationError ("PDF file " ++ pathStr ++ " is empty."))
  else if pdf.size_bytes > p.max_file_size_bytes then
    .error (PyExn.pdfValidationError ("PDF file size " ++ toString pdf.size_bytes
      ++ " exceeds the maximum allowed size of " ++ toString p.max_file_size_bytes
      ++ " bytes."))
  else if !pdf.header_is_pdf then
    .error (PyExn.pdfValidationError ("File " ++ pathStr
      ++ " does not appear to be a valid PDF."))
  else if pdf.page_count > p.max_pages then
    .error (PyExn.pdfValidationError ("PDF file " ++ pathStr ++ " has "
      ++ toString pdf.page_count ++ " pages, which exceeds the maximum allowed "
      ++ toString p.max_pages ++ " pages."))
  else
    .ok true

/-- One element of `result.document.texts` produced by the docling
converter: an optional layout label and its text. -/
structure DocElement where
  label : Option String
  text : String
  deriving DecidableEq

/-- The converter result document: its text elements and the output of
`export_to_text`. -/
structure DocModel where
  texts : List DocElement
  export_text : String
  deriving DecidableEq

/-- Flush the accumulated section (title, body) into the section list when
its stripped body is non-empty, as the sectioning loop does on each new
heading and at end of document. -/
def DoclingParser.flush_section (cur : String × String) (secs : List PaperSection) :
    List PaperSection :=
  if pyStrip cur.2 ≠ "" then secs ++ [{ title := cur.1, content := pyStrip cur.2 }]
  else secs

/-- The sectioning loop of `DoclingParser.parse_pdf`: a heading-labelled
element flushes the current section and starts a new one titled by the
heading text; any other element appends its text plus a newline to the
current body. -/
def DoclingParser.section_loop (cur : String × String) (secs : List PaperSection) :
    List DocElement → List PaperSection × (String × String)
  | [] => (secs, cur)
  | el :: rest =>
    match el.label with
    | some lbl =>
      if lbl = "title" ∨ lbl = "section_header" then
        DoclingParser.section_loop (pyStrip el.text, "") (DoclingParser.flush_section cur secs) rest
      else
        if el.text ≠ "" then
          DoclingParser.section_loop (cur.1, cur.2 ++ el.text ++ "\n") secs rest
        else
          DoclingParser.section_loop cur secs rest
    | none =>
      if el.text ≠ "" then
        DoclingParser.section_loop (cur.1, cur.2 ++ el.text ++ "\n") secs rest
      else
        DoclingParser.section_loop cur secs rest

/-- Sections extracted from a converted document: run the loop from the
initial accumulator (title `content`, empty body) and flush the last
section. -/
def DoclingParser.extract_sections (doc : DocModel) : List PaperSection :=
  let r := DoclingParser.section_loop ("content", "") [] doc.texts
  DoclingParser.flush_section r.2 r.1

/-- The soft-skip test in the `except PDFValidationError` handler of
`DoclingParser.parse_pdf`: lowercase the message and look for the
substrings `too large` or `too many pages`. -/
def DoclingParser.soft_skip_check (msg : String) : Bool :=
  strHasSub (strLower msg) "too large" || strHasSub (strLower msg) "too many pages"

/-- Classification of a converter failure in the final `except Exception`
handler of `DoclingParser.parse_pdf`, by substring checks on the lowercased
message. -/
def DoclingParser.classify_parse_failure (p : DoclingParser) (pathStr : String)
    (rawMsg : String) : PyExn :=
  let m := strLower rawMsg
  if strHasSub m "not valid" then
    PyExn.pdfParsingException ("PDF appears to be corrupted or invalid: " ++ pathStr)
  else if strHasSub m "timeout" then
    PyExn.pdfParsingException ("PDF processing timed out: " ++ pathStr)
  else if strHasSub m "memory" || strHasSub m "ram" then
    PyExn.pdfParsingException ("Out of memory processing PDF: " ++ pathStr)
  else if strHasSub m "max_num_pages" || strHasSub m "page" then
    PyExn.pdfParsingException ("PDF processing failed, possibly due to page limit ("
      ++ toString p.max_pages ++ " pages). Error: " ++ rawMsg)
  else
    PyExn.pdfParsingException ("Failed to parse PDF with Docling: " ++ rawMsg)

/-- Method `DoclingParser.parse_pdf`: validate, then convert (`convert`
models the external docling conversion, which either yields a document or
fails with a message).  A `PDFValidationError` is turned into a `None`
return only when `soft_skip_check` accepts its message; otherwise it is
re-raised.  Any other failure is classified and raised as
`PDFParsingException`. -/
def DoclingParser.parse_pdf (p : DoclingParser) (pdf : PdfInfo) (pathStr : String)
    (convert : Except String DocModel) : Py (Option PdfContent) :=
  let body : Py (Option PdfContent) :=
    match DoclingParser.validate_pdf p pdf pathStr with
    | .error e => .error e
    | .ok _ =>
      match convert with
      | .error msg => .error (PyExn.valueError msg)
      | .ok doc =>
        .ok (some
          { sections := DoclingParser.extract_sections doc
            raw_text := doc.export_text
            references := []
            parser_used := ParserType.docling
            metadata := [("source", "docling"),
              ("note", "Content extracted from pdf, metadata comes from arxiv api.")] })
  match body with
  | .ok r => .ok r
  | .error (PyExn.pdfValidationError msg) =>
    if DoclingParser.soft_skip_check msg then .ok none
    else .error (PyExn.pdfValidationError msg)
  | .error e => .error (DoclingParser.classify_parse_failure p pathStr e.str)

/-! ## PDFParserService (src/services/pdf_parser/parser.py) -/

/-- Class `PDFParserService`.  Its `__init__` assigns exactly one instance
attribute, `docling_parser`; the `async def parse_pdf` that follows inside
`__init__` creates a local function object that is never bound to `self`
(and is discarded when `__init__` returns). -/
structure PDFParserService where
  doclingParser : DoclingParser
  deriving DecidableEq

/-- Attribute lookup of `parse_pdf` on a `PDFParserService` instance: the
class body defines no such method and `__init__` binds no such attribute,
so the lookup finds nothing. -/
def PDFParserService.lookup_parse_pdf (_ : PDFParserService) :
    Option (String → Py (Option PdfContent)) :=
  none

/-- The call `pdf_parser.parse_pdf(path)`: attribute lookup followed by a
call; a failed lookup raises `AttributeError`. -/
def PDFParserService.call_parse_pdf (svc : PDFParserService) (path : String) :
    Py (Option PdfContent) :=
  match svc.lookup_parse_pdf with
  | some f => f path
  | none => .error (PyExn.attributeError
      "PDFParserService object has no attribute parse_pdf")

/-! ## Per-item download+parse pipeline (src/services/metadata_extractor.py) -/

/-- The `ArxivMetadata(...)` construction inside the pipeline, copying the
paper fields. -/
def MetadataFetcher.mk_arxiv_metadata (paper : ArxivPaper) : ArxivMetadata :=
  { title := paper.title, authors := paper.authors, abstract := paper.abstract,
    arxiv_id := paper.arxiv_id, categories := paper.categories,
    published_date := paper.published_date, pdf_url := paper.pdf_url }

/-- Method `MetadataFetcher._download_and_parse_pipeline` for one paper.
`downloadResult` is the outcome of `arxiv_client.download_pdf(paper)` (a
path, `None`, or a raised exception); the parse stage calls
`self.pdf_parser.parse_pdf(pdf_path)` on the given `PDFParserService`.  The
semaphore blocks only schedule work and do not change the data flow, which
is: download; on `None` return `(False, None)`; otherwise parse and return
`(True, parsed-or-None)`.  Any exception from either stage is caught by the
enclosing `except` and re-raised as `MetadataFetchingException`, which
`asyncio.gather(..., return_exceptions=True)` then records as this item's
outcome. -/
def MetadataFetcher.download_and_parse_pipeline (paper : ArxivPaper)
    (svc : PDFParserService) (downloadResult : Py (Option String)) :
    Py (Bool × Option ParsedPaper) :=
  let body : Py (Bool × Option ParsedPaper) :=
    match downloadResult with
    | .error e => .error e
    | .ok none => .ok (false, none)
    | .ok (some pdfPath) =>
      match PDFParserService.call_parse_pdf svc pdfPath with
      | .error e => .error e
      | .ok (some content) =>
        .ok (true, some { arxiv_metadata := MetadataFetcher.mk_arxiv_metadata paper,
                          pdf_content := some content })
      | .ok none => .ok (true, none)
  match body with
  | .ok r => .ok r
  | .error e => .error (PyExn.metadataFetchingException
      ("Error in download and parse pipeline for paper " ++ paper.arxiv_id ++ ": "
        ++ e.str))

/-- The list returned by `asyncio.gather(*pipeline_tasks,
return_exceptions=True)`: one outcome per paper, in input order, the item at
absolute index `i0 + k` built from paper `k` of the list and the download
behaviour `dl (i0 + k)`. -/
def MetadataFetcher.gather_outcomes (svc : PDFParserService)
    (dl : Nat → Py (Option String)) : List ArxivPaper → Nat →
    List (Py (Bool × Option ParsedPaper))
  | [], _ => []
  | p :: ps, i0 =>
    MetadataFetcher.download_and_parse_pipeline p svc (dl i0)
      :: MetadataFetcher.gather_outcomes svc dl ps (i0 + 1)

/-- The mutable `results` dictionary of `_process_pdf_batch`. -/
structure PdfBatchResults where
  downloaded : Nat
  parsed : Nat
  parsed_papers : List (String × ParsedPaper)
  errors : List String
  download_failures : List String
  parse_failures : List String
  deriving DecidableEq

/-- Initial value of the `_process_pdf_batch` results dictionary. -/
def MetadataFetcher.init_batch_results : PdfBatchResults :=
  { downloaded := 0, parsed := 0, parsed_papers := [], errors := [],
    download_failures := [], parse_failures := [] }

/-- The classification loop `for paper, result in zip(papers, pipeline)` of
`_process_pdf_batch`.  An exception outcome appends a pipeline error
message.  A non-exception outcome is a 2-tuple, which is truthy, so the
`elif result:` branch runs `download_success, parsed_paper = results` — it
unpacks the 6-key `results` dictionary (not the loop variable `result`)
into two names, raising `ValueError`; the `else` branch is unreachable. -/
def MetadataFetcher.classify_loop (acc : PdfBatchResults) :
    List (ArxivPaper × Py (Bool × Option ParsedPaper)) → Py PdfBatchResults
  | [] => .ok acc
  | (paper, res) :: rest =>
    match res with
    | .error e =>
      MetadataFetcher.classify_loop
        { acc with errors := acc.errors
            ++ ["Pipeline error for paper " ++ paper.arxiv_id ++ ": " ++ e.str] } rest
    | .ok _ => .error (PyExn.valueError "too many values to unpack (expected 2)")

/-- Method `MetadataFetcher._process_pdf_batch`: gather all per-item
outcomes, run the classification loop, then extend the error list with the
per-id download/parse failure messages. -/
def MetadataFetcher.process_pdf_batch (svc : PDFParserService)
    (papers : List ArxivPaper) (dl : Nat → Py (Option String)) : Py PdfBatchResults :=
  let outcomes := MetadataFetcher.gather_outcomes svc dl papers 0
  match MetadataFetcher.classify_loop MetadataFetcher.init_batch_results
      (papers.zip outcomes) with
  | .error e => .error e
  | .ok r =>
    .ok { r with errors := r.errors
        ++ r.download_failures.map (fun aid => "Download failure for paper " ++ aid)
        ++ r.parse_failures.map (fun aid => "Parse failure for paper " ++ aid) }

/-! ## Storage (src/schemas/arxiv/paper.py, src/models/paper.py,
src/repositories/paper.py, MetadataFetcher._store_papers_to_db) -/

/-- Values held by paper fields: strings, string lists, string-pair lists
(serialized sections and metadata dicts), booleans, Python `None`, and the
symbolic value of `datetime.now()`. -/
inductive FieldVal where
  | str (s : String)
  | strList (l : List String)
  | pairList (l : List (String × String))
  | boolean (b : Bool)
  | nothing
  | dateNow
  deriving DecidableEq

/-- Pydantic schema `PaperCreate` (inheriting `PaperBase`) from
src/schemas/arxiv/paper.py.  The natural-key field is declared as
`arxive_id` — that spelling is the source's — while the ORM column, the
repository and the orchestrator all use `arxiv_id`.  The optional
parsed-content fields default as in the schema. -/
structure PaperCreate where
  arxive_id : String
  title : String
  authors : List String
  abstract : String
  categories : List String
  published_date : String
  pdf_url : String
  raw_text : FieldVal := FieldVal.nothing
  sections : FieldVal := FieldVal.nothing
  references : FieldVal := FieldVal.nothing
  parser_used : FieldVal := FieldVal.nothing
  parser_metadata : FieldVal := FieldVal.nothing
  pdf_processed : FieldVal := FieldVal.boolean false
  pdf_processing_date : FieldVal := FieldVal.nothing
  deriving DecidableEq

/-- The field names and values of a `PaperCreate` instance, in declaration
order; this is also `model_dump()`. -/
def PaperCreate.field_list (p : PaperCreate) : List (String × FieldVal) :=
  [("arxive_id", FieldVal.str p.arxive_id),
   ("title", FieldVal.str p.title),
   ("authors", FieldVal.strList p.authors),
   ("abstract", FieldVal.str p.abstract),
   ("categories", FieldVal.strList p.categories),
   ("published_date", FieldVal.str p.published_date),
   ("pdf_url", FieldVal.str p.pdf_url),
   ("raw_text", p.raw_text),
   ("sections", p.sections),
   ("references", p.references),
   ("parser_used", p.parser_used),
   ("parser_metadata", p.parser_metadata),
   ("pdf_processed", p.pdf_processed),
   ("pdf_processing_date", p.pdf_processing_date)]

/-- Attribute access on a `PaperCreate` instance: pydantic raises
`AttributeError` for a name that is not a declared field.  In particular
`paper_create.arxiv_id` raises, because the declared field is
`arxive_id`. -/
def PaperCreate.getattr (p : PaperCreate) (name : String) : Py FieldVal :=
  match p.field_list.find? (fun kv => kv.1 = name) with
  | some kv => .ok kv.2
  | none => .error (PyExn.attributeError
      ("PaperCreate object has no attribute " ++ name))

/-- Keyword lookup in a Python dict built without duplicate keys. -/
def kwLookup (kwargs : List (String × FieldVal)) (k : String) : Option FieldVal :=
  (kwargs.find? (fun kv => kv.1 = k)).map (fun kv => kv.2)

/-- A required string field of `PaperCreate` validation: present with a
string value, else a pydantic `ValidationError`. -/
def reqStr (kwargs : List (String × FieldVal)) (k : String) : Py String :=
  match kwLookup kwargs k with
  | some (FieldVal.str s) => .ok s
  | _ => .error (PyExn.validationError
      ("validation error for PaperCreate: " ++ k ++ " field required"))

/-- A required string-list field of `PaperCreate` validation. -/
def reqStrList (kwargs : List (String × FieldVal)) (k : String) : Py (List String) :=
  match kwLookup kwargs k with
  | some (FieldVal.strList l) => .ok l
  | _ => .error (PyExn.validationError
      ("validation error for PaperCreate: " ++ k ++ " field required"))

/-- Construction `PaperCreate(**kwargs)`: every non-defaulted field of the
schema — `arxive_id` among them — must be supplied; unknown keys (such as
`arxiv_id`) are ignored by pydantic's default `extra` handling; optional
fields fall back to their declared defaults. -/
def PaperCreate.from_kwargs (kwargs : List (String × FieldVal)) : Py PaperCreate := do
  let a ← reqStr kwargs "arxive_id"
  let t ← reqStr kwargs "title"
  let au ← reqStrList kwargs "authors"
  let ab ← reqStr kwargs "abstract"
  let c ← reqStrList kwargs "categories"
  let pd ← reqStr kwargs "published_date"
  let u ← reqStr kwargs "pdf_url"
  return { arxive_id := a, title := t, authors := au, abstract := ab, categories := c,
           published_date := pd, pdf_url := u,
           raw_text := (kwLookup kwargs "raw_text").getD FieldVal.nothing,
           sections := (kwLookup kwargs "sections").getD FieldVal.nothing,
           references := (kwLookup kwargs "references").getD FieldVal.nothing,
           parser_used := (kwLookup kwargs "parser_used").getD FieldVal.nothing,
           parser_metadata := (kwLookup kwargs "parser_metadata").getD FieldVal.nothing,
           pdf_processed := (kwLookup kwargs "pdf_processed").getD (FieldVal.boolean false),
           pdf_processing_date :=
             (kwLookup kwargs "pdf_processing_date").getD FieldVal.nothing }

/-- Column names of the ORM model `Paper` (src/models/paper.py). -/
def Paper.columns : List String :=
  ["id", "arxiv_id", "title", "authors", "abstract", "categories", "published_date",
   "pdf_url", "raw_text", "references", "sections", "parser_used", "parser_metadata",
   "pdf_processed", "pdf_processing_data", "created_at", "updated_at"]

/-- A row of the `papers` table, as a field assignment. -/
structure PaperRow where
  fields : List (String × FieldVal)
  deriving DecidableEq

/-- Field lookup on a row. -/
def PaperRow.lookup (r : PaperRow) (k : String) : Option FieldVal :=
  (r.fields.find? (fun kv => kv.1 = k)).map (fun kv => kv.2)

/-- Construction `Paper(**kwargs)`: SQLAlchemy raises `TypeError` when a
keyword is not a mapped column.  `model_dump()` of a `PaperCreate` contains
the key `arxive_id`, which is not a `Paper` column. -/
def Paper.from_kwargs (kwargs : List (String × FieldVal)) : Py PaperRow :=
  match kwargs.find? (fun kv => !(Paper.columns.contains kv.1)) with
  | some kv => .error (PyExn.typeError
      (kv.1 ++ " is an invalid keyword argument for Paper"))
  | none => .ok { fields := kwargs }

/-- A SQLAlchemy session: rows already committed to the `papers` table and
rows added but not yet committed. -/
structure Session where
  committed : List PaperRow
  staged : List PaperRow
  deriving DecidableEq

/-- `session.add(row)`. -/
def Session.add (s : Session) (r : PaperRow) : Session :=
  { s with staged := s.staged ++ [r] }

/-- `session.commit()` when it succeeds: staged rows become durable. -/
def Session.commit_ok (s : Session) : Session :=
  { committed := s.committed ++ s.staged, staged := [] }

/-- `session.rollback()`: staged rows are discarded; committed rows are
untouched (a rollback cannot undo earlier commits). -/
def Session.rollback (s : Session) : Session :=
  { s with staged := [] }

/-- Class `PaperRepository` (src/repositories/paper.py), holding its
session. -/
structure PaperRepository where
  session : Session

/-- Method `PaperRepository.get_by_arxiv_id`: first row of the `papers`
table whose `arxiv_id` column equals the argument. -/
def PaperRepository.get_by_arxiv_id (repo : PaperRepository) (aid : String) :
    Option PaperRow :=
  (repo.session.committed ++ repo.session.staged).find?
    (fun r => r.lookup "arxiv_id" = some (FieldVal.str aid))

/-- Method `PaperRepository.create`: build `Paper(**paper.model_dump())`,
add it to the session and `commit()` immediately (the commit is inside this
method, not deferred to the batch).  The `arxive_id` key of the dump makes
the construction raise `TypeError` before anything is staged. -/
def PaperRepository.create (repo : PaperRepository) (pc : PaperCreate) :
    Py PaperRow × Session :=
  match Paper.from_kwargs pc.field_list with
  | .error e => (.error e, repo.session)
  | .ok row => (.ok row, (repo.session.add row).commit_ok)

/-- Method `PaperRepository.update`: re-add the (already mutated) row and
`commit()` immediately. -/
def PaperRepository.update (repo : PaperRepository) (row : PaperRow) :
    Py PaperRow × Session :=
  (.ok row, (repo.session.add row).commit_ok)

/-- Overwriting the fields of an existing row with the dumped record fields,
as the `setattr` loop of `upsert` does. -/
def PaperRow.overwrite (r : PaperRow) (upd : List (String × FieldVal)) : PaperRow :=
  { fields := r.fields.map (fun kv =>
      match kwLookup upd kv.1 with
      | some v => (kv.1, v)
      | none => kv)
      ++ upd.filter (fun kv => (kwLookup r.fields kv.1).isNone) }

/-- Method `PaperRepository.upsert`: its first statement evaluates
`paper_create.arxiv_id`, and the schema declares no such attribute (the
field is `arxive_id`), so the call raises `AttributeError` before any
lookup, update or insert happens.  The lookup/update/insert branches below
are the source's, kept for completeness but unreachable. -/
def PaperRepository.upsert (repo : PaperRepository) (pc : PaperCreate) :
    Py PaperRow × Session :=
  match pc.getattr "arxiv_id" with
  | .error e => (.error e, repo.session)
  | .ok v =>
    match v with
    | FieldVal.str aid =>
      match repo.get_by_arxiv_id aid with
      | some existing => repo.update (existing.overwrite pc.field_list)
      | none => repo.create pc
    | _ => repo.create pc

/-- Method `MetadataFetcher.serialize_parsed_content`: the dictionary of
parsed-content columns for a paper whose parse succeeded; when
`pdf_content` is `None`, the attribute accesses inside the `try` raise and
the handler returns the two-key fallback dictionary (note its misspelled
`parsed_metadata` key, as in the source). -/
def MetadataFetcher.serialize_parsed_content (pp : ParsedPaper) :
    List (String × FieldVal) :=
  match pp.pdf_content with
  | some c =>
    [("raw_text", FieldVal.str c.raw_text),
     ("sections", FieldVal.pairList (c.sections.map (fun s => (s.title, s.content)))),
     ("references", FieldVal.strList c.references),
     ("parser_used", FieldVal.str c.parser_used.val),
     ("parser_metadata", FieldVal.pairList c.metadata),
     ("pdf_processed", FieldVal.boolean true),
     ("pdf_processing_date", FieldVal.dateNow)]
  | none =>
    [("pdf_processed", FieldVal.boolean false),
     ("parsed_metadata", FieldVal.pairList
        [("error", "NoneType object has no attribute sections")])]

/-- The `paper_data` dictionary `_store_papers_to_db` builds for one paper:
base metadata keyed by `arxiv_id`, then either the serialized parsed
content or the metadata-only marker entries. -/
def MetadataFetcher.paper_data (paper : ArxivPaper) (parsed : Option ParsedPaper) :
    List (String × FieldVal) :=
  [("arxiv_id", FieldVal.str paper.arxiv_id),
   ("title", FieldVal.str paper.title),
   ("authors", FieldVal.strList paper.authors),
   ("abstract", FieldVal.str paper.abstract),
   ("categories", FieldVal.strList paper.categories),
   ("published_date", FieldVal.str paper.published_date),
   ("pdf_url", FieldVal.str paper.pdf_url)]
  ++ (match parsed with
      | some pp => MetadataFetcher.serialize_parsed_content pp
      | none =>
        [("pdf_processed", FieldVal.boolean false),
         ("parser_metadata", FieldVal.pairList
            [("note", "pdf processing not available or failed.")])])

/-- One iteration of the storage loop of `_store_papers_to_db`: build the
`PaperCreate` and upsert it; any exception is caught by the per-paper
handler (logged and swallowed). -/
def MetadataFetcher.store_one_paper (s : Session) (paper : ArxivPaper)
    (parsed : Option ParsedPaper) : Py PaperRow × Session :=
  match PaperCreate.from_kwargs (MetadataFetcher.paper_data paper parsed) with
  | .error e => (.error e, s)
  | .ok pc => PaperRepository.upsert { session := s } pc

/-- Method `MetadataFetcher._store_papers_to_db`: loop over the papers,
counting the upserts that return a row, then one final `commit()`; when the
final commit fails, `rollback()` and report a stored count of zero.  The
function never touches the batch error list. -/
def MetadataFetcher.store_papers_to_db (papers : List ArxivPaper)
    (parsed_papers : List (String × ParsedPaper)) (s : Session)
    (finalCommitFails : Bool) : Nat × Session :=
  let step := fun (acc : Nat × Session) (paper : ArxivPaper) =>
    let parsed := (parsed_papers.find? (fun kv => kv.1 = paper.arxiv_id)).map
      (fun kv => kv.2)
    match MetadataFetcher.store_one_paper acc.2 paper parsed with
    | (.ok _, s2) => (acc.1 + 1, s2)
    | (.error _, s2) => (acc.1, s2)
  let r := papers.foldl step (0, s)
  if finalCommitFails then (0, r.2.rollback) else (r.1, r.2.commit_ok)

/-! ## Batch orchestrator (MetadataFetcher.fetch_and_process_paper) -/

/-- The mutable `results` dictionary of `fetch_and_process_paper`.  The
dictionary is initialised with a `papers_downloaded` key, but the code
later assigns a new `pdf_downloaded` key instead, so that key is absent
(`none`) until the assignment runs.  The wall-clock `processing_time` entry
is outside this model. -/
structure FetchResults where
  papers_fetched : Nat
  papers_downloaded : Nat
  pdf_downloaded : Option Nat
  pdf_parsed : Nat
  papers_stored : Nat
  errors : List String
  deriving DecidableEq

/-- Initial value of the orchestrator results dictionary. -/
def MetadataFetcher.init_results : FetchResults :=
  { papers_fetched := 0, papers_downloaded := 0, pdf_downloaded := none,
    pdf_parsed := 0, papers_stored := 0, errors := [] }

/-- The `except Exception` handler of `fetch_and_process_paper`: append one
final `Critical pipeline error` entry to the results and raise
`PipelineException`.  The error value carries the results dictionary as it
stands after that append. -/
def MetadataFetcher.raise_pipeline (e : PyExn) (r : FetchResults) :
    Except (PyExn × FetchResults) (FetchResults × Option Session) :=
  .error (PyExn.pipelineException
      ("Critical error in metadata fetching pipeline: " ++ e.str),
    { r with errors := r.errors ++ ["Critical pipeline error: " ++ e.str] })

/-- Method `MetadataFetcher.fetch_and_process_paper`.  `fetchResult` is the
outcome of the `arxiv_client.fetch_papers` call; `dl` gives each item's
download outcome; `finalCommitFails` drives the storage commit.  Control
flow follows the source: empty fetch returns early; `pdf_results` starts as
the empty dict and is replaced only when `process_pdf` is true, after which
`pdf_results["downloaded"]` is read unconditionally — a `KeyError` on the
empty dict; every exception inside the `try` is converted by
`raise_pipeline`. -/
def MetadataFetcher.fetch_and_process_paper (fetchResult : Py (List ArxivPaper))
    (process_pdf store_to_db : Bool) (db_session : Option Session)
    (svc : PDFParserService) (dl : Nat → Py (Option String))
    (finalCommitFails : Bool) :
    Except (PyExn × FetchResults) (FetchResults × Option Session) :=
  match fetchResult with
  | .error e => MetadataFetcher.raise_pipeline e MetadataFetcher.init_results
  | .ok papers =>
    let results1 := { MetadataFetcher.init_results with papers_fetched := papers.length }
    if papers.isEmpty then .ok (results1, db_session)
    else
      match (if process_pdf
             then (MetadataFetcher.process_pdf_batch svc papers dl).map some
             else .ok none) with
      | .error e => MetadataFetcher.raise_pipeline e results1
      | .ok none => MetadataFetcher.raise_pipeline (PyExn.keyError "downloaded") results1
      | .ok (some pr) =>
        let results2 := { results1 with
                          pdf_downloaded := some pr.downloaded
                          pdf_parsed := pr.parsed
                          errors := results1.errors ++ pr.errors }
        if store_to_db then
          match db_session with
          | some s =>
            let r := MetadataFetcher.store_papers_to_db papers pr.parsed_papers s
              finalCommitFails
            .ok ({ results2 with papers_stored := r.1 }, some r.2)
          | none =>
            .ok ({ results2 with errors := results2.errors
                ++ ["Database storage requested but no session provided."] }, none)
        else .ok (results2, db_session)

/-! ## Concurrency discipline of the batch stage

`_process_pdf_batch` creates `asyncio.Semaphore(max_concurrent_downloads)`
and `asyncio.Semaphore(max_concurrent_parsing)` and starts one
`_download_and_parse_pipeline` task per paper.  Each task enters
`async with download_semaphore` for the download only, leaves that block
(releasing the slot) and only then enters `async with parse_semaphore` for
the parse; early return and exceptions also leave the blocks, releasing the
held slot.  The transition system below models exactly this discipline:
one phase per task, with the semaphore counters as shared state. -/

/-- Phase of one per-item pipeline task. -/
inductive TaskPhase where
  | waitingDownload
  | downloading
  | waitingParse
  | parsing
  | finished
  deriving DecidableEq

/-- How many semaphore slots a task in the given phase holds. -/
def TaskPhase.slotsHeld : TaskPhase → Nat
  | .downloading => 1
  | .parsing => 1
  | _ => 0

/-- Number of tasks currently in a given phase. -/
def countPh (ph : TaskPhase) : List TaskPhase → Nat
  | [] => 0
  | x :: xs => (if x = ph then 1 else 0) + countPh ph xs

/-- Shared state of one batch run: one phase per task plus the two
semaphore counters. -/
structure SemState where
  tasks : List TaskPhase
  dAvail : Nat
  pAvail : Nat
  deriving DecidableEq

/-- Initial state: every task is about to request the download semaphore
and both counters are full. -/
def initSemState (n maxD maxP : Nat) : SemState :=
  { tasks := List.replicate n TaskPhase.waitingDownload, dAvail := maxD, pAvail := maxP }

/-- One scheduler step of the batch run.  Acquiring a semaphore requires a
free slot and decrements the counter; leaving an `async with` block
increments it.  A downloading task either proceeds to the parse stage
(download yielded a path) or finishes (download returned `None`, or the
stage raised and the pipeline's handler turned it into this item's
exception outcome); either way it first releases the download slot.  A
parsing task finishes and releases the parse slot, whether the parse
returned or raised. -/
inductive SemStep : SemState → SemState → Prop where
  | acquireDownload (s : SemState) (t : Nat)
      (h : s.tasks.get? t = some TaskPhase.waitingDownload) (hd : 0 < s.dAvail) :
      SemStep s { tasks := s.tasks.set t TaskPhase.downloading,
                  dAvail := s.dAvail - 1, pAvail := s.pAvail }
  | downloadToParse (s : SemState) (t : Nat)
      (h : s.tasks.get? t = some TaskPhase.downloading) :
      SemStep s { tasks := s.tasks.set t TaskPhase.waitingParse,
                  dAvail := s.dAvail + 1, pAvail := s.pAvail }
  | downloadDone (s : SemState) (t : Nat)
      (h : s.tasks.get? t = some TaskPhase.downloading) :
      SemStep s { tasks := s.tasks.set t TaskPhase.finished,
                  dAvail := s.dAvail + 1, pAvail := s.pAvail }
  | acquireParse (s : SemState) (t : Nat)
      (h : s.tasks.get? t = some TaskPhase.waitingParse) (hp : 0 < s.pAvail) :
      SemStep s { tasks := s.tasks.set t TaskPhase.parsing,
                  dAvail := s.dAvail, pAvail := s.pAvail - 1 }
  | parseDone (s : SemState) (t : Nat)
      (h : s.tasks.get? t = some TaskPhase.parsing) :
      SemStep s { tasks := s.tasks.set t TaskPhase.finished,
                  dAvail := s.dAvail, pAvail := s.pAvail + 1 }

/-- States reachable from the initial state of a batch of `n` tasks with
download limit `maxD` and parse limit `maxP`. -/
def SemReachable (n maxD maxP : Nat) (s : SemState) : Prop :=
  Relation.ReflTransGen SemStep (initSemState n maxD maxP) s

/-- The semaphore accounting invariant: held download slots plus the free
download counter equal the limit, and likewise for parsing. -/
def SemInv (maxD maxP : Nat) (s : SemState) : Prop :=
  countPh TaskPhase.downloading s.tasks + s.dAvail = maxD ∧
  countPh TaskPhase.parsing s.tasks + s.pAvail = maxP

/-! ## Concrete fixtures used by the evaluation theorems -/

/-- A sample fetched paper. -/
def paperA : ArxivPaper :=
  { arxiv_id := "2301.00001", title := "Paper A", authors := ["Alice"],
    abstract := "Abstract A", categories := ["cs.AI"],
    published_date := "2023-01-02T00:00:00Z",
    pdf_url := "https://arxiv.org/pdf/2301.00001" }

/-- A second sample fetched paper. -/
def paperB : ArxivPaper :=
  { arxiv_id := "2301.00002", title := "Paper B", authors := ["Bob"],
    abstract := "Abstract B", categories := ["cs.AI"],
    published_date := "2023-01-03T00:00:00Z",
    pdf_url := "https://arxiv.org/pdf/2301.00002" }

/-- A parser service configured with the defaults of
`PDFParserService.__init__` (20 pages, 20 MB). -/
def svcA : PDFParserService :=
  { doclingParser := DoclingParser.mk_parser 20 20 }

/-- A well-formed feed entry for `paperA`. -/
def entryA : AtomEntry :=
  { arxiv_id_text := some "2301.00001", title_text := some "Paper A",
    summary_text := some "Abstract A", published_text := some "2023-01-02T00:00:00Z",
    author_names := ["Alice"], category_terms := ["cs.AI"],
    pdf_href := some "http://arxiv.org/pdf/2301.00001" }

/-- A well-formed feed entry for `paperB`. -/
def entryB : AtomEntry :=
  { arxiv_id_text := some "2301.00002", title_text := some "Paper B",
    summary_text := some "Abstract B", published_text := some "2023-01-03T00:00:00Z",
    author_names := ["Bob"], category_terms := ["cs.AI"],
    pdf_href := some "http://arxiv.org/pdf/2301.00002" }

/-- A directly constructed, fully valid `PaperCreate` (its required field
is `arxive_id`, as the schema declares). -/
def pcA : PaperCreate :=
  { arxive_id := "2301.00001", title := "Paper A", authors := ["Alice"],
    abstract := "Abstract A", categories := ["cs.AI"],
    published_date := "2023-01-02T00:00:00Z",
    pdf_url := "https://arxiv.org/pdf/2301.00001" }

/-- A fresh session over an empty `papers` table. -/
def sessionEmpty : Session :=
  { committed := [], staged := [] }

/-- Download behaviour: every item fails to return a path. -/
def dlNone : Nat → Py (Option String) :=
  fun _ => .ok none

/-- Download behaviour: item 0 raises a download error, every other item
returns no path. -/
def dlFail0 : Nat → Py (Option String) :=
  fun k => if k = 0 then .error (PyExn.pdfDownloadTimeoutError "download failed") else .ok none

/-- Download attempts that always fail with a non-timeout HTTP error after
opening (and thus truncating or partially writing) the destination file. -/
def attemptsHttpFail : Nat → AttemptResult :=
  fun _ => AttemptResult.failure HttpFailure.httpErr true

/-- A converter document used where conversion is not reached or its
content does not matter. -/
def docA : DocModel :=
  { texts := [], export_text := "raw text" }

/-- A PDF one page over the default 20-page limit, otherwise valid. -/
def pdfOverPages : PdfInfo :=
  { size_bytes := 1000, header_is_pdf := true, page_count := 21 }

/-- A PDF over the default byte limit, otherwise valid. -/
def pdfOverSize : PdfInfo :=
  { size_bytes := 30000000, header_is_pdf := true, page_count := 1 }

/-- The batch state after the first task acquires the download slot, in a
run of 10 tasks with download limit 2 and parse limit 1. -/
def semState1 : SemState :=
  { tasks := (List.replicate 10 TaskPhase.waitingDownload).set 0 TaskPhase.downloading,
    dAvail := 1, pAvail := 1 }

/-! ## Helper lemmas -/

theorem gather_outcomes_length (svc : PDFParserService) (dl : Nat → Py (Option String))
    (ps : List ArxivPaper) (i0 : Nat) :
    (MetadataFetcher.gather_outcomes svc dl ps i0).length = ps.length := by
  induction ps generalizing i0 with
  | nil => rfl
  | cons p ps ih => simp [MetadataFetcher.gather_outcomes, ih]

theorem gather_outcomes_get_congr (svc : PDFParserService)
    (dl1 dl2 : Nat → Py (Option String)) (ps : List ArxivPaper) (i0 j : Nat)
    (h : dl1 (i0 + j) = dl2 (i0 + j)) :
    (MetadataFetcher.gather_outcomes svc dl1 ps i0).get? j =
      (MetadataFetcher.gather_outcomes svc dl2 ps i0).get? j := by
  induction ps generalizing i0 j with
  | nil => rfl
  | cons p ps ih =>
    cases j with
    | zero =>
      rw [Nat.add_zero] at h
      simp [MetadataFetcher.gather_outcomes, List.get?, h]
    | succ j =>
      have hj : dl1 ((i0 + 1) + j) = dl2 ((i0 + 1) + j) := by
        have : (i0 + 1) + j = i0 + (j + 1) := by omega
        rw [this]
        exact h
      simpa [MetadataFetcher.gather_outcomes, List.get?] using ih (i0 + 1) j hj

theorem countPh_replicate_ne (n : Nat) (q ph : TaskPhase) (h : q ≠ ph) :
    countPh ph (List.replicate n q) = 0 := by
  induction n with
  | zero => rfl
  | succ n ih => simp [List.replicate_succ, countPh, h, ih]

theorem countPh_set (l : List TaskPhase) (t : Nat) (old a ph : TaskPhase)
    (h : l.get? t = some old) :
    countPh ph (l.set t a) + (if old = ph then 1 else 0) =
      countPh ph l + (if a = ph then 1 else 0) := by
  induction l generalizing t with
  | nil => simp [List.get?] at h
  | cons x xs ih =>
    cases t with
    | zero =>
      simp [List.get?] at h
      subst h
      simp [List.set, countPh]
      omega
    | succ t =>
      have h2 : xs.get? t = some old := by simpa [List.get?] using h
      have := ih t h2
      simp [List.set, countPh]
      omega

theorem semInv_init (n maxD maxP : Nat) : SemInv maxD maxP (initSemState n maxD maxP) := by
  constructor
  · simp [initSemState, countPh_replicate_ne n TaskPhase.waitingDownload
      TaskPhase.downloading (by decide)]
  · simp [initSemState, countPh_replicate_ne n TaskPhase.waitingDownload
      TaskPhase.parsing (by decide)]

theorem semInv_step (maxD maxP : Nat) (s s2 : SemState) (hs : SemInv maxD maxP s)
    (hstep : SemStep s s2) : SemInv maxD maxP s2 := by
  obtain ⟨h1, h2⟩ := hs
  cases hstep with
  | acquireDownload t h hd =>
    have hD := countPh_set s.tasks t TaskPhase.waitingDownload TaskPhase.downloading
      TaskPhase.downloading h
    have hP := countPh_set s.tasks t TaskPhase.waitingDownload TaskPhase.downloading
      TaskPhase.parsing h
    simp at hD hP
    constructor
    · dsimp only
      omega
    · dsimp only
      omega
  | downloadToParse t h =>
    have hD := countPh_set s.tasks t TaskPhase.downloading TaskPhase.waitingParse
      TaskPhase.downloading h
    have hP := countPh_set s.tasks t TaskPhase.downloading TaskPhase.waitingParse
      TaskPhase.parsing h
    simp at hD hP
    constructor
    · dsimp only
      omega
    · dsimp only
      omega
  | downloadDone t h =>
    have hD := countPh_set s.tasks t TaskPhase.downloading TaskPhase.finished
      TaskPhase.downloading h
    have hP := countPh_set s.tasks t TaskPhase.downloading TaskPhase.finished
      TaskPhase.parsing h
    simp at hD hP
    constructor
    · dsimp only
      omega
    · dsimp only
      omega
  | acquireParse t h hp =>
    have hD := countPh_set s.tasks t TaskPhase.waitingParse TaskPhase.parsing
      TaskPhase.downloading h
    have hP := countPh_set s.tasks t TaskPhase.waitingParse TaskPhase.parsing
      TaskPhase.parsing h
    simp at hD hP
    constructor
    · dsimp only
      omega
    · dsimp only
      omega
  | parseDone t h =>
    have hD := countPh_set s.tasks t TaskPhase.parsing TaskPhase.finished
      TaskPhase.downloading h
    have hP := countPh_set s.tasks t TaskPhase.parsing TaskPhase.finished
      TaskPhase.parsing h
    simp at hD hP
    constructor
    · dsimp only
      omega
    · dsimp only
      omega

theorem semInv_reachable (n maxD maxP : Nat) (s : SemState)
    (h : SemReachable n maxD maxP s) : SemInv maxD maxP s := by
  induction h with
  | refl => exact semInv_init n maxD maxP
  | tail _ hstep ih => exact semInv_step maxD maxP _ _ ih hstep

/-! ## Claim theorems -/

/-- C1: the claim says a `PipelineException` escapes
`fetch_and_process_paper` only when the metadata fetch itself throws, and
that every other invocation — including `process_pdf=False` — returns a
populated results dictionary.  On the code this fails: with
`process_pdf=False` the empty `pdf_results` dict is still indexed at
`"downloaded"`, raising `KeyError`, and with `process_pdf=True` the
classification loop unpacks the `results` dictionary (six keys) into two
names as soon as any item outcome is a tuple, raising `ValueError`; both
are converted by the outer handler into an escaping `PipelineException`
after appending one final errors entry. -/
theorem c1_non_fetch_failures_also_raise_pipeline_exception :
    MetadataFetcher.fetch_and_process_paper (.ok [paperA]) false false none svcA dlNone
        false =
      .error (PyExn.pipelineException
          "Critical error in metadata fetching pipeline: downloaded",
        ⟨1, 0, none, 0, 0, ["Critical pipeline error: downloaded"]⟩) ∧
    MetadataFetcher.fetch_and_process_paper (.ok [paperA]) true false none svcA dlNone
        false =
      .error (PyExn.pipelineException
          "Critical error in metadata fetching pipeline: too many values to unpack (expected 2)",
        ⟨1, 0, none, 0, 0,
          ["Critical pipeline error: too many values to unpack (expected 2)"]⟩) := by
  decide

/-- C2: isolation between per-item pipelines.  The outcome list returned by
`asyncio.gather(..., return_exceptions=True)` has one entry per paper, and
item `j`'s outcome depends only on item `j`'s own download behaviour:
changing whether any other item `i` fails (the two download-behaviour
assignments agree everywhere except at `i`) leaves item `j`'s outcome — and
the presence of an outcome for every item — unchanged. -/
theorem c2_item_outcome_isolation (svc : PDFParserService) (papers : List ArxivPaper)
    (dl1 dl2 : Nat → Py (Option String)) (i : Nat)
    (hagree : ∀ k, k ≠ i → dl1 k = dl2 k) (j : Nat) (hj : j ≠ i) :
    (MetadataFetcher.gather_outcomes svc dl1 papers 0).length = papers.length ∧
    (MetadataFetcher.gather_outcomes svc dl2 papers 0).length = papers.length ∧
    (MetadataFetcher.gather_outcomes svc dl1 papers 0).get? j =
      (MetadataFetcher.gather_outcomes svc dl2 papers 0).get? j := by
  refine ⟨gather_outcomes_length svc dl1 papers 0, gather_outcomes_length svc dl2 papers 0, ?_⟩
  apply gather_outcomes_get_congr
  rw [Nat.zero_add]
  exact hagree j hj

/-- Witness for C2 at a concrete batch: item 0 raising a download error
versus item 0 succeeding leaves item 1's outcome unchanged. -/
theorem c2_item_outcome_isolation_witness :
    (MetadataFetcher.gather_outcomes svcA dlFail0 [paperA, paperB] 0).length = 2 ∧
    (MetadataFetcher.gather_outcomes svcA dlNone [paperA, paperB] 0).length = 2 ∧
    (MetadataFetcher.gather_outcomes svcA dlFail0 [paperA, paperB] 0).get? 1 =
      (MetadataFetcher.gather_outcomes svcA dlNone [paperA, paperB] 0).get? 1 := by
  have h := c2_item_outcome_isolation svcA [paperA, paperB] dlFail0 dlNone 0
    (fun k hk => by simp [dlFail0, dlNone, hk]) 1 (by decide)
  simpa using h

/-- C3: the claim says the batch's upserts are staged in one shared
transaction, committed exactly once after all items, rolled back atomically
on commit failure with a stored count of zero.  On the code the storage
path is dead: every `PaperCreate(**paper_data)` raises a pydantic
validation error because the schema field is spelled `arxive_id` while the
orchestrator passes `arxiv_id`, so nothing is ever staged and the count is
always zero whether the final commit succeeds or fails; and the repository
itself commits inside `create`, so even a directly constructed record could
not share the batch transaction (here `create` raises because the dumped
`arxive_id` key is not a `Paper` column). -/
theorem c3_storage_path_is_dead :
    MetadataFetcher.store_papers_to_db [paperA] [] sessionEmpty false = (0, sessionEmpty) ∧
    MetadataFetcher.store_papers_to_db [paperA] [] sessionEmpty true = (0, sessionEmpty) ∧
    PaperCreate.from_kwargs (MetadataFetcher.paper_data paperA none) =
      .error (PyExn.validationError
        "validation error for PaperCreate: arxive_id field required") ∧
    (PaperRepository.create { session := sessionEmpty } pcA).1 =
      .error (PyExn.typeError "arxive_id is an invalid keyword argument for Paper") := by
  decide

/-- C4: the claim says consecutive metadata fetches are separated by at
least `rate_limit_delay`.  On the code the timestamp update sits inside the
`if self._last_request_time is not None` guard, so a freshly constructed
client never records a request time: the first call leaves the state at
`None`, the second call therefore skips the whole rate-limit block, and two
back-to-back `fetch_papers` requests are issued with zero separation, which
is less than the delay of 3 seconds. -/
theorem c4_fresh_client_back_to_back_zero_gap :
    (let s1 := ArxivClient.fetch_papers_rate_step 3 0 { last_request_time := none }
     let s2 := ArxivClient.fetch_papers_rate_step 3 s1.request_time s1.state
     s1.sleep_seconds = 0 ∧ s1.state.last_request_time = none ∧
       s2.sleep_seconds = 0 ∧ s2.request_time = s1.request_time ∧ (0 : Rat) < 3) :=
  ⟨rfl, rfl, rfl, rfl, by norm_num⟩

/-- C5: the claim says `parse` returns `None` (a soft skip) when validation
rejects a file purely on size or page-count grounds.  On the code the
soft-skip handler looks for the substrings `too large` / `too many pages`
in the lowercased message, but `_validate_pdf` phrases both messages with
`exceeds the maximum allowed`, so neither matches and the
`PDFValidationError` is re-raised instead of returning `None`. -/
theorem c5_size_and_page_limit_rejections_raise :
    DoclingParser.parse_pdf svcA.doclingParser pdfOverPages "2301.00001.pdf" (.ok docA) =
      .error (PyExn.pdfValidationError
        "PDF file 2301.00001.pdf has 21 pages, which exceeds the maximum allowed 20 pages.") ∧
    DoclingParser.soft_skip_check
      "PDF file 2301.00001.pdf has 21 pages, which exceeds the maximum allowed 20 pages."
      = false ∧
    DoclingParser.parse_pdf svcA.doclingParser pdfOverSize "2301.00001.pdf" (.ok docA) =
      .error (PyExn.pdfValidationError
        "PDF file size 30000000 exceeds the maximum allowed size of 20971520 bytes.") ∧
    DoclingParser.soft_skip_check
      "PDF file size 30000000 exceeds the maximum allowed size of 20971520 bytes."
      = false := by
  decide

/-- C6: the claim says exhausted downloads raise the timeout variant for
timeout failures and the generic variant for other transport failures, and
that the partial file is deleted on exhaustion.  On the code the first
`except Exception` clause handles every failure, so three non-timeout HTTP
failures still raise `PDFDownloadTimeoutError`; the raise happens inside
the handler, so the post-loop cleanup never runs and the partial file is
left at the path.  The linear backoff sleeps (`base_delay * attempt_number`
= 5, 10) do match the claim. -/
theorem c6_exhaustion_raises_timeout_variant_and_keeps_partial_file :
    (ArxivClient.download_with_retry 5 3 attemptsHttpFail
        "https://arxiv.org/pdf/2301.00001").outcome =
      .error (PyExn.pdfDownloadTimeoutError
        "Failed to download PDF from https://arxiv.org/pdf/2301.00001 after 3 attempts.") ∧
    (ArxivClient.download_with_retry 5 3 attemptsHttpFail
        "https://arxiv.org/pdf/2301.00001").sleeps = [5, 10] ∧
    (ArxivClient.download_with_retry 5 3 attemptsHttpFail
        "https://arxiv.org/pdf/2301.00001").fileAtPath = true := by
  refine ⟨by decide, ?_, by decide⟩
  have h : (ArxivClient.download_with_retry 5 3 attemptsHttpFail
      "https://arxiv.org/pdf/2301.00001").sleeps
      = [5 * ((0 + 1 : Nat) : Rat), 5 * ((1 + 1 : Nat) : Rat)] := rfl
  rw [h]
  norm_num

/-- C7: the claim says every well-formed entry of a well-formed feed is
returned and a malformed entry is skipped without truncating the fetch.  On
the code `_parse_single_entry` always returns `None` (its first `_get_text`
call passes the undeclared keyword `clean_newlines`, raising `TypeError`
into the catch-all), and `_parse_response` has its `return papers`
statement inside the `for` loop, so a two-entry well-formed feed yields an
empty list — and an empty feed yields `None` rather than an empty list. -/
theorem c7_two_entry_feed_yields_no_papers :
    ArxivClient.parse_response [entryA, entryB] = some [] ∧
    ArxivClient.parse_single_entry entryA = none ∧
    ArxivClient.parse_single_entry entryB = none ∧
    ArxivClient.parse_response [] = none := by
  decide

/-- C8: the claim says `upsert` looks up by natural id, updates or inserts,
and is idempotent.  On the code the very first statement of `upsert` reads
`paper_create.arxiv_id`, an attribute the schema does not declare (its
field is `arxive_id`), so both calls raise `AttributeError`, the session is
left untouched, and the table holds zero rows for the key instead of
exactly one. -/
theorem c8_upsert_raises_attribute_error_stores_nothing :
    PaperRepository.upsert { session := sessionEmpty } pcA =
      (.error (PyExn.attributeError "PaperCreate object has no attribute arxiv_id"),
        sessionEmpty) ∧
    (let r1 := PaperRepository.upsert { session := sessionEmpty } pcA
     let r2 := PaperRepository.upsert { session := r1.2 } pcA
     r2.1 = .error (PyExn.attributeError "PaperCreate object has no attribute arxiv_id") ∧
       ((r2.2.committed ++ r2.2.staged).countP
         (fun r => decide (r.lookup "arxiv_id" = some (FieldVal.str "2301.00001")))) = 0) := by
  decide

/-- C9: in every reachable state of a batch run, at most `maxD` downloads
and at most `maxP` parses are in flight, every task holds at most one
limiter slot (the download slot is released before the parse slot can be
requested, since only a `waitingParse` task may acquire it), and total
in-flight work is bounded by `maxD + maxP`. -/
theorem c9_semaphore_bounds (n maxD maxP : Nat) (s : SemState)
    (h : SemReachable n maxD maxP s) :
    countPh TaskPhase.downloading s.tasks ≤ maxD ∧
    countPh TaskPhase.parsing s.tasks ≤ maxP ∧
    (∀ ph, ph ∈ s.tasks → ph.slotsHeld ≤ 1) ∧
    countPh TaskPhase.downloading s.tasks + countPh TaskPhase.parsing s.tasks
      ≤ maxD + maxP := by
  obtain ⟨h1, h2⟩ := semInv_reachable n maxD maxP s h
  refine ⟨by omega, by omega, ?_, by omega⟩
  intro ph _
  cases ph <;> decide

/-- Witness for C9 at a concrete reachable state: 10 tasks, download limit
2, parse limit 1, after task 0 acquires the download slot. -/
theorem c9_semaphore_bounds_witness :
    countPh TaskPhase.downloading semState1.tasks ≤ 2 ∧
    countPh TaskPhase.parsing semState1.tasks ≤ 1 ∧
    (∀ ph, ph ∈ semState1.tasks → ph.slotsHeld ≤ 1) ∧
    countPh TaskPhase.downloading semState1.tasks + countPh TaskPhase.parsing semState1.tasks
      ≤ 2 + 1 :=
  c9_semaphore_bounds 10 2 1 semState1
    (Relation.ReflTransGen.single
      (SemStep.acquireDownload (initSemState 10 2 1) 0 (by decide) (by decide)))

/-- C10: `PDFParserService` defines `parse_pdf` only as a local function
inside `__init__`, so instances expose no such attribute; every call from
the per-item pipeline therefore raises `AttributeError`, which the pipeline
converts into that item's `MetadataFetchingException` outcome, and no item
can ever produce a parsed-content outcome through this service. -/
theorem c10_parse_pdf_attribute_missing :
    (∀ svc : PDFParserService, svc.lookup_parse_pdf = none) ∧
    (∀ (svc : PDFParserService) (paper : ArxivPaper) (path : String),
      MetadataFetcher.download_and_parse_pipeline paper svc (.ok (some path)) =
        .error (PyExn.metadataFetchingException
          ("Error in download and parse pipeline for paper " ++ paper.arxiv_id
            ++ ": " ++ "PDFParserService object has no attribute parse_pdf"))) ∧
    (∀ (svc : PDFParserService) (paper : ArxivPaper) (dlr : Py (Option String))
        (b : Bool) (pp : ParsedPaper),
      MetadataFetcher.download_and_parse_pipeline paper svc dlr ≠ .ok (b, some pp)) := by
  refine ⟨fun svc => rfl, fun svc paper path => rfl, ?_⟩
  intro svc paper dlr b pp
  cases dlr with
  | error e => simp [MetadataFetcher.download_and_parse_pipeline]
  | ok v =>
    cases v with
    | none => simp [MetadataFetcher.download_and_parse_pipeline]
    | some p =>
      simp [MetadataFetcher.download_and_parse_pipeline,
        PDFParserService.call_parse_pdf, PDFParserService.lookup_parse_pdf]
